import Mathlib

/-! Shallow embedding of the hiperfaturometro risk-analysis pipeline
(`src/src/services/hiperfaturamento_analyzer.py` and
`src/src/tracker/hiperfaturamento_tracker.py`), with theorems checking the
specification's claims about it.

Modelling conventions:
* Python floats are embedded as exact rationals (`ℚ`).
* datetimes are embedded as integer day counts; the code under analysis
  only ever uses day differences (`(data_fechamento - now).days`).
* `random.uniform(0.1, 0.6)` in `_analisar_empresa_cartel` is embedded as an
  explicit parameter `draw`, constrained to `[1/10, 6/10]` where a theorem
  needs the interval.
* the wall clock `datetime.now()` is an explicit parameter `now`.
* the market-price lookup is passed as a parameter `mp`; the concrete table
  `obter_preco_mercado` from the source is also defined below.
* a Python `try/except` whole-body wrapper that returns a fallback value is
  embedded by a boolean oracle marking whether an exception occurs in the
  body (`analisar_licitacao`); detector-level `try/except` blocks only ever
  fire on list indexing, which is embedded via `Option`.
-/

/-- Does the character list `t` start with `needle`? (substring helper). -/
def ehPrefixo : List Char → List Char → Bool
  | [], _ => true
  | _ :: _, [] => false
  | a :: as, b :: bs => a == b && ehPrefixo as bs

/-- All suffix character lists of a list, longest first. -/
def sufixos : List Char → List (List Char)
  | [] => [[]]
  | a :: t => (a :: t) :: sufixos t

/-- Python `needle in hay` on strings: substring containment. -/
def strContains (hay needle : String) : Bool :=
  (sufixos hay.toList).any (fun t => ehPrefixo needle.toList t)

/-- Python `int(q)` for a rational: truncation toward zero. -/
def pyInt (q : ℚ) : ℤ :=
  if 0 ≤ q then Int.floor q else Int.ceil q

/-- `NivelRisco` from `src/src/models/analise.py`. -/
inductive NivelRisco
  | BAIXO
  | MEDIO
  | ALTO
  | CRITICO
deriving DecidableEq, Repr

/-- `TipoEvidencia` from `src/src/models/analise.py`. -/
inductive TipoEvidencia
  | preco_excessivo
  | especificacoes_tailor_made
  | empresa_cartel
  | baixa_concorrencia
  | prazo_suspeito
  | historico_suspeito
deriving DecidableEq, Repr

/-- Structured rendering of the `detalhes` dict attached to each evidence
item, one constructor per detector payload shape. -/
inductive Detalhes
  | nenhum
  | precoExc (preco_proposto preco_mercado diferenca_percentual : ℚ)
  | tailorMade (especificacoes : String) (score_suspeicao : ℚ)
  | cartel (empresa cnpj : String) (taxa_vitorias : ℚ) (orgao : String)
  | baixaConc (num_participantes : ℕ) (threshold : ℕ)
  | prazo (dias_para_fechamento : ℤ) (threshold : ℤ)
deriving DecidableEq, Repr

/-- `Evidencia` from `src/src/models/analise.py`. -/
structure Evidencia where
  tipo : TipoEvidencia
  descricao : String
  score : ℚ
  detalhes : Detalhes := Detalhes.nenhum
deriving DecidableEq, Repr

/-- `Participante` from `src/src/models/licitacao.py`. -/
structure Participante where
  cnpj : String
  nome : String
  preco_proposto : ℚ
  classificacao : ℤ
  habilitado : Bool := true
deriving DecidableEq, Repr

/-- `ItemLicitacao` from `src/src/models/licitacao.py`. -/
structure ItemLicitacao where
  codigo : String := ""
  descricao : String
  quantidade : ℤ := 1
  unidade : String := "un"
  especificacoes : String := ""
  preco_estimado : Option ℚ := Option.none
deriving DecidableEq, Repr

/-- `StatusLicitacao` from `src/src/models/licitacao.py`. -/
inductive StatusLicitacao
  | ABERTA
  | FECHADA
  | CANCELADA
  | SUSPENSA
deriving DecidableEq, Repr

/-- `TipoLicitacao` from `src/src/models/licitacao.py`. -/
inductive TipoLicitacao
  | CONCORRENCIA
  | TOMADA_PRECOS
  | PREGAO
  | RDC
deriving DecidableEq, Repr

/-- `Licitacao` from `src/src/models/licitacao.py`; timestamps are integer
day counts. -/
structure Licitacao where
  id : String
  numero : String := ""
  orgao : String := ""
  modalidade : TipoLicitacao := TipoLicitacao.PREGAO
  objeto : String := ""
  data_abertura : ℤ := 0
  data_fechamento : ℤ := 0
  valor_estimado : ℚ := 0
  status : StatusLicitacao := StatusLicitacao.ABERTA
  itens : List ItemLicitacao := []
  participantes : List Participante := []
deriving DecidableEq, Repr

/-- `AnaliseHiperfaturamento` from `src/src/models/analise.py`;
`data_analise` is the `now` day count of the run. -/
structure AnaliseHiperfaturamento where
  licitacao_id : String
  data_analise : ℤ
  score_geral : ℚ
  nivel_risco : NivelRisco
  evidencias : List Evidencia
  recomendacoes : List String
  confiabilidade : ℚ
  analista_responsavel : String := "Sistema IA"
deriving DecidableEq, Repr

/-- The `envolvidos` dict of `_criar_envolvidos`. -/
structure Envolvidos where
  empresa_nome : String
  empresa_cnpj : String
  socios : List String
  historico_vitorias : ℤ
  faturamento_anual : ℚ
  aprovador_nome : String
  aprovador_cargo : String
  aprovador_orgao : String
  historico_licitacoes : ℤ
  tempo_cargo : String
deriving DecidableEq, Repr

/-- `CasoProcessado` from `src/src/models/analise.py`. -/
structure CasoProcessado where
  id : String
  titulo : String
  orgao : String
  data_abertura : ℤ
  valor_estimado : ℚ
  empresa_vencedora : String
  cnpj : String
  produto : String
  quantidade : ℤ
  preco_edital : ℚ
  preco_mercado : ℚ
  diferenca_percentual : ℚ
  valor_superfaturado : ℚ
  evidencias : List String
  status : String
  nivel_risco : NivelRisco
  risk_score : ℤ
  priority_level : String
  envolvidos : Envolvidos
deriving DecidableEq, Repr

/-- The `self.thresholds` dict of `HiperfaturamentoAnalyzer.__init__`
(the `especificacoes_tailor_made` entry exists in the source but is unused:
the detector compares against the literal `40`). -/
structure Thresholds where
  preco_excessivo : ℚ := 50
  especificacoes_tailor_made : ℚ := 8/10
  empresa_cartel : ℚ := 8/10
  baixa_concorrencia : ℕ := 1
  prazo_suspeito : ℤ := 3
deriving DecidableEq, Repr

/-- `self.pesos` of `HiperfaturamentoAnalyzer.__init__` together with the
`dict.get(..., 0.1)` fallback used in `_calcular_score_geral`:
`preco_excessivo ↦ 0.4`, `especificacoes_tailor_made ↦ 0.3`,
`empresa_cartel ↦ 0.2`, `baixa_concorrencia ↦ 0.1`, anything else ↦ `0.1`. -/
def pesoDe : TipoEvidencia → ℚ
  | TipoEvidencia.preco_excessivo => 4/10
  | TipoEvidencia.especificacoes_tailor_made => 3/10
  | TipoEvidencia.empresa_cartel => 2/10
  | TipoEvidencia.baixa_concorrencia => 1/10
  | TipoEvidencia.prazo_suspeito => 1/10
  | TipoEvidencia.historico_suspeito => 1/10

/-- The keyword/price table of `_obter_preco_mercado`, in source order
(Python dicts iterate in insertion order). -/
def precos_mercado : List (String × ℚ) :=
  [("dell latitude 5520", 2800), ("dell latitude", 2800), ("dell", 2800),
   ("hp elitebook 850 g8", 3200), ("hp elitebook", 3200), ("hp elite", 3200),
   ("hp", 3000),
   ("lenovo thinkpad e15", 2900), ("lenovo thinkpad", 2900), ("lenovo", 2900),
   ("samsung galaxy tab a8", 1200), ("samsung galaxy tab", 1200),
   ("samsung tablet", 1200),
   ("ipad 10.9", 2800), ("ipad", 2800), ("apple ipad", 2800),
   ("samsung galaxy a54", 1800), ("samsung galaxy", 1800),
   ("samsung smartphone", 1800),
   ("motorola moto g73", 1400), ("motorola moto", 1400), ("motorola", 1400),
   ("hp elitedesk 800 g8", 3500), ("hp elitedesk", 3500), ("desktop hp", 3500),
   ("notebook", 2800), ("tablet", 1500), ("smartphone", 1600),
   ("computador", 3500), ("desktop", 3500)]

/-- `_obter_preco_mercado`: first matching keyword in table order, then the
category fallbacks, else `None`. -/
def obter_preco_mercado (produto : String) : Option ℚ :=
  let pl := produto.toLower
  match precos_mercado.find? (fun kp => strContains pl kp.1) with
  | Option.some kp => Option.some kp.2
  | Option.none =>
    if ["notebook", "laptop"].any (fun w => strContains pl w) then
      Option.some 2800
    else if ["tablet", "ipad"].any (fun w => strContains pl w) then
      Option.some 1500
    else if ["smartphone", "celular", "moto"].any (fun w => strContains pl w) then
      Option.some 1600
    else if ["computador", "desktop", "pc"].any (fun w => strContains pl w) then
      Option.some 3500
    else
      Option.none

/-- The minimum of the proposed prices of a nonempty bidder list
(`min(p.preco_proposto for p in licitacao.participantes)`). -/
def menorPreco (p : Participante) (ps : List Participante) : ℚ :=
  ps.foldl (fun m q => min m q.preco_proposto) p.preco_proposto

/-- `_analisar_preco_excessivo`, with the market lookup `mp` and the
`preco_excessivo` threshold as parameters. An empty `itens` list makes
`licitacao.itens[0]` raise `IndexError`, which the detector's `except`
turns into `None`; `if preco_mercado:` is Python truthiness, false for
both `None` and `0.0`. -/
def analisar_preco_excessivo (mp : String → Option ℚ) (th : ℚ)
    (lic : Licitacao) : Option Evidencia :=
  match lic.participantes, lic.itens with
  | [], _ => Option.none
  | _, [] => Option.none
  | p :: ps, item :: _ =>
    let menor_preco := menorPreco p ps
    match mp item.descricao with
    | Option.none => Option.none
    | Option.some preco_mercado =>
      if preco_mercado = 0 then Option.none
      else
        let dif := (menor_preco - preco_mercado) / preco_mercado * 100
        if th < dif then
          Option.some
            { tipo := TipoEvidencia.preco_excessivo
              descricao := "Preço " ++ toString dif ++ "% acima do mercado"
              score := min 100 dif
              detalhes := Detalhes.precoExc menor_preco preco_mercado dif }
        else
          Option.none

/-- The `palavras_suspeitas` list of `_analisar_especificacoes_tailor_made`. -/
def palavras_suspeitas : List String :=
  ["exclusivamente", "apenas", "somente", "obrigatoriamente",
   "marca específica", "modelo específico"]

/-- The accumulation loop of `_analisar_especificacoes_tailor_made`:
`+20` for each suspicious keyword occurring in the lower-cased text. -/
def scoreSuspeicao (esp : String) : ℚ :=
  palavras_suspeitas.foldl
    (fun s palavra => if strContains esp palavra then s + 20 else s) 0

/-- `_analisar_especificacoes_tailor_made`. An empty `itens` list raises
`IndexError`, caught as `None`. -/
def analisar_especificacoes_tailor_made (lic : Licitacao) : Option Evidencia :=
  match lic.itens with
  | [] => Option.none
  | item :: _ =>
    let s := scoreSuspeicao item.especificacoes.toLower
    if 40 < s then
      Option.some
        { tipo := TipoEvidencia.especificacoes_tailor_made
          descricao := "Especificações muito específicas detectadas"
          score := s
          detalhes := Detalhes.tailorMade item.especificacoes s }
    else
      Option.none

/-- The hard-coded id substrings that make `_analisar_empresa_cartel` use
the fixed win rate `0.85` instead of a random draw. -/
def idsSuspeitos : List String :=
  ["PT-2024-001", "PT-2024-002", "PT-2024-003", "PT-2024-004",
   "PT-2024-005", "PT-2024-006", "CN-2024-001", "CN-2024-002"]

/-- `_analisar_empresa_cartel`, with the `empresa_cartel` threshold and the
`random.uniform(0.1, 0.6)` draw as parameters. Note the source takes
`licitacao.participantes[0]` as the winning company ("Assumindo que é o
primeiro"), and scores `int(taxa_vitorias * 100)`. -/
def analisar_empresa_cartel (th : ℚ) (draw : ℚ) (lic : Licitacao) :
    Option Evidencia :=
  match lic.participantes with
  | [] => Option.none
  | empresa_vencedora :: _ =>
    let taxa_vitorias : ℚ :=
      if idsSuspeitos.any (fun s => strContains lic.id s) then 85/100 else draw
    if th < taxa_vitorias then
      Option.some
        { tipo := TipoEvidencia.empresa_cartel
          descricao := "Empresa ganhou " ++ toString (taxa_vitorias * 100) ++
            "% das licitações no órgão"
          score := (pyInt (taxa_vitorias * 100) : ℚ)
          detalhes := Detalhes.cartel empresa_vencedora.nome
            empresa_vencedora.cnpj taxa_vitorias lic.orgao }
    else
      Option.none

/-- `_analisar_baixa_concorrencia`, with the `baixa_concorrencia` threshold
as a parameter. Its score `100 - num_participantes * 50` is not clamped. -/
def analisar_baixa_concorrencia (th : ℕ) (lic : Licitacao) : Option Evidencia :=
  let num_participantes := lic.participantes.length
  if num_participantes < th then
    Option.some
      { tipo := TipoEvidencia.baixa_concorrencia
        descricao := "Apenas " ++ toString num_participantes ++
          " participante(s)"
        score := 100 - (num_participantes : ℚ) * 50
        detalhes := Detalhes.baixaConc num_participantes th }
  else
    Option.none

/-- `_analisar_prazo_suspeito`, with the `prazo_suspeito` threshold and the
current day `now` as parameters. Its score `100 - dias * 20` is not
clamped, so negative remaining days push it above 100. -/
def analisar_prazo_suspeito (th : ℤ) (now : ℤ) (lic : Licitacao) :
    Option Evidencia :=
  let dias_para_fechamento := lic.data_fechamento - now
  if dias_para_fechamento < th then
    Option.some
      { tipo := TipoEvidencia.prazo_suspeito
        descricao := "Apenas " ++ toString dias_para_fechamento ++
          " dias para fechamento"
        score := 100 - (dias_para_fechamento : ℚ) * 20
        detalhes := Detalhes.prazo dias_para_fechamento th }
  else
    Option.none

/-- The accumulation loop of `_calcular_score_geral`: running pair of
(weighted score sum, weight sum). -/
def somaPonderada (evidencias : List Evidencia) (a : ℚ × ℚ) : ℚ × ℚ :=
  evidencias.foldl
    (fun a e => (a.1 + e.score * pesoDe e.tipo, a.2 + pesoDe e.tipo)) a

/-- `_calcular_score_geral`: weighted average of the evidence scores, `0`
for an empty list (and for a non-positive weight sum). -/
def calcular_score_geral (evidencias : List Evidencia) : ℚ :=
  if evidencias.isEmpty then 0
  else
    let acc := somaPonderada evidencias (0, 0)
    if 0 < acc.2 then acc.1 / acc.2 else 0

/-- `_determinar_nivel_risco`. -/
def determinar_nivel_risco (score : ℚ) : NivelRisco :=
  if 80 ≤ score then NivelRisco.CRITICO
  else if 60 ≤ score then NivelRisco.ALTO
  else if 40 ≤ score then NivelRisco.MEDIO
  else NivelRisco.BAIXO

/-- `_gerar_recomendacoes`: tiered items by score band, then one item per
evidence entry in list order. -/
def gerar_recomendacoes (evidencias : List Evidencia) (score : ℚ) :
    List String :=
  (if 80 ≤ score then
    ["URGENTE: Investigação imediata recomendada", "Solicitar auditoria externa"]
   else if 60 ≤ score then
    ["Análise detalhada recomendada", "Verificar histórico da empresa"]
   else if 40 ≤ score then
    ["Monitoramento adicional recomendado"]
   else []) ++
  evidencias.filterMap (fun e =>
    match e.tipo with
    | TipoEvidencia.preco_excessivo =>
      Option.some "Verificar preços de mercado atualizados"
    | TipoEvidencia.especificacoes_tailor_made =>
      Option.some "Revisar especificações técnicas"
    | TipoEvidencia.empresa_cartel =>
      Option.some "Investigar histórico da empresa no órgão"
    | TipoEvidencia.baixa_concorrencia =>
      Option.some "Aumentar prazo para mais participantes"
    | _ => Option.none)

/-- `_calcular_confiabilidade`. -/
def calcular_confiabilidade (evidencias : List Evidencia) : ℚ :=
  if evidencias.isEmpty then 0
  else
    let confiabilidade_base := min 100 ((evidencias.length : ℚ) * 20)
    let score_medio :=
      (evidencias.map (fun e => e.score)).sum / (evidencias.length : ℚ)
    min 100 (confiabilidade_base * (score_medio / 100))

/-- The body of `analisar_licitacao`'s `try` block: run the five detectors
in order (appending each evidence item if present), aggregate, classify,
recommend, estimate confidence. -/
def analisar_licitacao_core (mp : String → Option ℚ) (cfg : Thresholds)
    (draw : ℚ) (now : ℤ) (lic : Licitacao) : AnaliseHiperfaturamento :=
  let evidencias :=
    (analisar_preco_excessivo mp cfg.preco_excessivo lic).toList ++
    (analisar_especificacoes_tailor_made lic).toList ++
    (analisar_empresa_cartel cfg.empresa_cartel draw lic).toList ++
    (analisar_baixa_concorrencia cfg.baixa_concorrencia lic).toList ++
    (analisar_prazo_suspeito cfg.prazo_suspeito now lic).toList
  let score_geral := calcular_score_geral evidencias
  { licitacao_id := lic.id
    data_analise := now
    score_geral := score_geral
    nivel_risco := determinar_nivel_risco score_geral
    evidencias := evidencias
    recomendacoes := gerar_recomendacoes evidencias score_geral
    confiabilidade := calcular_confiabilidade evidencias }

/-- The `except` branch of `analisar_licitacao`: the placeholder analysis
returned when the `try` body raises. -/
def analise_erro (licitacao_id : String) (now : ℤ) : AnaliseHiperfaturamento :=
  { licitacao_id := licitacao_id
    data_analise := now
    score_geral := 0
    nivel_risco := NivelRisco.BAIXO
    evidencias := []
    recomendacoes := ["Erro na análise - verificar dados"]
    confiabilidade := 0 }

/-- `analisar_licitacao`: the whole body is wrapped in `try/except`; the
oracle `raisesHere` marks whether an exception occurs inside the body for
this record (the detectors themselves cannot raise out of the body, each
having its own `except`). Either way a value is returned: the call itself
never raises. -/
def analisar_licitacao (raisesHere : Bool) (mp : String → Option ℚ)
    (cfg : Thresholds) (draw : ℚ) (now : ℤ) (lic : Licitacao) :
    AnaliseHiperfaturamento :=
  if raisesHere then analise_erro lic.id now
  else analisar_licitacao_core mp cfg draw now lic

/-- `HiperfaturamentoTracker._analisar_licitacoes`: loops over the records,
calling `analisar_licitacao` on each and appending the result. The loop's
own `try/except` (which would skip a record) is dead code in the model just
as in the source, because `analisar_licitacao` always returns a value. -/
def analisar_licitacoes (raises : Licitacao → Bool) (mp : String → Option ℚ)
    (cfg : Thresholds) (draw : ℚ) (now : ℤ) (lics : List Licitacao) :
    List AnaliseHiperfaturamento :=
  lics.map (fun lic => analisar_licitacao (raises lic) mp cfg draw now lic)

/-- Python `min(participantes, key=lambda p: p.preco_proposto)` on a
nonempty list: the first bidder attaining the minimum proposed price. -/
def vencedorPorPreco (p : Participante) (ps : List Participante) :
    Participante :=
  ps.foldl (fun v q => if q.preco_proposto < v.preco_proposto then q else v) p

/-- `HiperfaturamentoTracker._criar_envolvidos` (placeholder data). -/
def criar_envolvidos (lic : Licitacao) (empresa cnpj : String) : Envolvidos :=
  { empresa_nome := empresa
    empresa_cnpj := cnpj
    socios := ["João Silva", "Maria Santos"]
    historico_vitorias := 15
    faturamento_anual := 5000000
    aprovador_nome := "Carlos Oliveira"
    aprovador_cargo := "Diretor de Compras"
    aprovador_orgao := lic.orgao
    historico_licitacoes := 50
    tempo_cargo := "3 anos" }

/-- The `priority_level` ladder inside `_criar_caso_processado`. -/
def priorityLevel (score : ℚ) : String :=
  if 80 ≤ score then "Crítica"
  else if 60 ≤ score then "Alta"
  else if 40 ≤ score then "Média"
  else "Baixa"

/-- `HiperfaturamentoTracker._criar_caso_processado`. Two failure modes of
the source are rendered as `Option.none` (the caller catches them
per-record): with no bidders the local `preco_mercado` is never assigned
inside `if licitacao.participantes:` yet is read by `preco_mercado or 0`, a
`NameError`; with no items `licitacao.itens[0]` is an `IndexError`.
`if preco_mercado:` is Python truthiness (false for `None` and `0.0`). -/
def criar_caso_processado (mp : String → Option ℚ) (lic : Licitacao)
    (analise : AnaliseHiperfaturamento) : Option CasoProcessado :=
  match lic.participantes, lic.itens with
  | [], _ => Option.none
  | _, [] => Option.none
  | p :: ps, item :: _ =>
    let menor_preco := menorPreco p ps
    let preco_mercado := mp item.descricao
    let truthy : Bool :=
      match preco_mercado with
      | Option.none => false
      | Option.some r => decide (r ≠ 0)
    let pmVal : ℚ :=
      match preco_mercado with
      | Option.none => 0
      | Option.some r => r
    let diferenca_percentual : ℚ :=
      if truthy then (menor_preco - pmVal) / pmVal * 100 else 0
    let valor_superfaturado : ℚ :=
      if truthy then (menor_preco - pmVal) * (item.quantidade : ℚ) else 0
    let vencedor := vencedorPorPreco p ps
    Option.some
      { id := lic.id
        titulo := "Superfaturamento em " ++ item.descricao
        orgao := lic.orgao
        data_abertura := lic.data_abertura
        valor_estimado := lic.valor_estimado
        empresa_vencedora := vencedor.nome
        cnpj := vencedor.cnpj
        produto := item.descricao
        quantidade := item.quantidade
        preco_edital := menor_preco
        preco_mercado := pmVal
        diferenca_percentual := diferenca_percentual
        valor_superfaturado := valor_superfaturado
        evidencias := analise.evidencias.map (fun e => e.descricao)
        status :=
          match analise.recomendacoes with
          | [] => "Em análise"
          | r :: _ => r
        nivel_risco := analise.nivel_risco
        risk_score := pyInt analise.score_geral
        priority_level := priorityLevel analise.score_geral
        envolvidos := criar_envolvidos lic vencedor.nome vencedor.cnpj }

/-- The dict comprehension `{a.licitacao_id: a for a in analises}` followed
by `.get(licitacao.id)`: the last analysis with a matching id, if any. -/
def analises_map (analises : List AnaliseHiperfaturamento) (id : String) :
    Option AnaliseHiperfaturamento :=
  analises.reverse.find? (fun a => a.licitacao_id == id)

/-- `HiperfaturamentoTracker._processar_casos`: for each record with an
analysis of risk `MEDIO`, `ALTO` or `CRITICO`, materialize a case; a
failure inside `_criar_caso_processado` is caught per-record and the case
is skipped. -/
def processar_casos (mp : String → Option ℚ) (lics : List Licitacao)
    (analises : List AnaliseHiperfaturamento) : List CasoProcessado :=
  lics.filterMap (fun lic =>
    match analises_map analises lic.id with
    | Option.none => Option.none
    | Option.some analise =>
      if analise.nivel_risco = NivelRisco.MEDIO ∨
         analise.nivel_risco = NivelRisco.ALTO ∨
         analise.nivel_risco = NivelRisco.CRITICO then
        criar_caso_processado mp lic analise
      else
        Option.none)

/-- The order `BAIXO < MEDIO < ALTO < CRITICO`, as a rank. -/
def nivelOrd : NivelRisco → ℕ
  | NivelRisco.BAIXO => 0
  | NivelRisco.MEDIO => 1
  | NivelRisco.ALTO => 2
  | NivelRisco.CRITICO => 3

/-- The company name and tax id stored in a cartel evidence detail. -/
def detalheEmpresa : Detalhes → Option (String × String)
  | Detalhes.cartel empresa cnpj _ _ => Option.some (empresa, cnpj)
  | _ => Option.none

/-- Bidder fixture: first-listed, higher price. -/
def pA : Participante :=
  { cnpj := "11.111.111/0001-11", nome := "Empresa A", preco_proposto := 100,
    classificacao := 1 }

/-- Bidder fixture: second-listed, lowest price. -/
def pB : Participante :=
  { cnpj := "22.222.222/0001-22", nome := "Empresa B", preco_proposto := 50,
    classificacao := 2 }

/-- Bidder fixture: third-listed. -/
def pC : Participante :=
  { cnpj := "33.333.333/0001-33", nome := "Empresa C", preco_proposto := 70,
    classificacao := 3 }

/-- A record whose id is on the hard-coded suspicious list and whose
first-listed bidder is not the cheapest. -/
def licPT : Licitacao :=
  { id := "PT-2024-001", participantes := [pA, pB] }

/-- A specification text containing all six suspicious phrases. -/
def seisFrases : String :=
  "exclusivamente apenas somente obrigatoriamente marca específica modelo específico"

/-- A record whose first item's specification matches all six phrases. -/
def licSeisFrases : Licitacao :=
  { id := "LIC-SEIS",
    itens := [{ descricao := "produto x", especificacoes := seisFrases }] }

/-- A record already closed five days ago (negative remaining days). -/
def licAtrasada : Licitacao :=
  { id := "LIC-ATRASADA", data_fechamento := -5 }

/-- A record with three bidders. -/
def licTresParticipantes : Licitacao :=
  { id := "LIC-TRES", participantes := [pA, pB, pC] }

/-- A record with one bidder. -/
def licUmParticipante : Licitacao :=
  { id := "LIC-UM", participantes := [pA] }

/-- A minimal record. -/
def licSimples : Licitacao :=
  { id := "LIC-0" }

/-- A bidder proposing a negative price. -/
def pD : Participante :=
  { cnpj := "44.444.444/0001-44", nome := "Empresa D",
    preco_proposto := -200, classificacao := 1 }

/-- A record whose only bidder proposes a negative price. -/
def licNegativa : Licitacao :=
  { id := "LIC-NEG", itens := [{ descricao := "produto x" }],
    participantes := [pD] }

/-- A record closing ten days from day 0. -/
def licPrazoDez : Licitacao :=
  { id := "LIC-PRAZO", data_fechamento := 10 }

/-- A record closing one day from day 0. -/
def licPrazoUm : Licitacao :=
  { id := "LIC-P1", data_fechamento := 1 }

/-- The deadline evidence the detector emits for `licPrazoUm` at day 0. -/
def evPrazoUm : Evidencia :=
  { tipo := TipoEvidencia.prazo_suspeito,
    descricao := "Apenas 1 dias para fechamento", score := 80,
    detalhes := Detalhes.prazo 1 3 }

/-- The cartel evidence the detector emits for `licPT`. -/
def evCartelPT : Evidencia :=
  { tipo := TipoEvidencia.empresa_cartel,
    descricao := "Empresa ganhou 85% das licitações no órgão", score := 85,
    detalhes := Detalhes.cartel "Empresa A" "11.111.111/0001-11" (85/100) "" }

/-- An evidence item with score 80. -/
def evOitenta : Evidencia :=
  { tipo := TipoEvidencia.preco_excessivo, descricao := "e1", score := 80 }

/-- An evidence item with score 60. -/
def evSessenta : Evidencia :=
  { tipo := TipoEvidencia.baixa_concorrencia, descricao := "e2", score := 60 }

/-- A line item whose specification matches three suspicious phrases. -/
def itemTresFrases : ItemLicitacao :=
  { descricao := "produto x",
    especificacoes := "apenas somente obrigatoriamente" }

/-- A bidder-less record carrying `itemTresFrases`; its analysis lands at
risk `ALTO` (tailored-spec score 60 and low-competition score 100 average
to 70). -/
def licSemParticipantes : Licitacao :=
  { id := "LIC-SEM", data_fechamento := 100, itens := [itemTresFrases] }

/-- The analyzer's output on `licSemParticipantes` (no exception). -/
def analiseSem : AnaliseHiperfaturamento :=
  analisar_licitacao_core obter_preco_mercado {} (3/10) 0 licSemParticipantes

/-- A synthetic low-risk record, indexed. -/
def licLow (i : ℕ) : Licitacao :=
  { id := "L" ++ toString i, itens := [{ descricao := "produto x" }],
    participantes := [pA] }

/-- A synthetic high-risk record, indexed. -/
def licHigh (i : ℕ) : Licitacao :=
  { id := "H" ++ toString i, itens := [{ descricao := "produto x" }],
    participantes := [pA] }

/-- A synthetic low-risk analysis for `licLow i`. -/
def anLow (i : ℕ) : AnaliseHiperfaturamento :=
  { licitacao_id := "L" ++ toString i, data_analise := 0, score_geral := 10,
    nivel_risco := NivelRisco.BAIXO, evidencias := [], recomendacoes := [],
    confiabilidade := 0 }

/-- A synthetic high-risk analysis for `licHigh i`. -/
def anHigh (i : ℕ) : AnaliseHiperfaturamento :=
  { licitacao_id := "H" ++ toString i, data_analise := 0, score_geral := 70,
    nivel_risco := NivelRisco.ALTO, evidencias := [], recomendacoes := [],
    confiabilidade := 0 }

/-- One hundred low-risk records plus five high-risk records. -/
def licsCentoCinco : List Licitacao :=
  (List.range 100).map licLow ++ (List.range 5).map licHigh

/-- Their analyses, in the same order. -/
def analisesCentoCinco : List AnaliseHiperfaturamento :=
  (List.range 100).map anLow ++ (List.range 5).map anHigh

set_option maxRecDepth 4000

/-- C1 (counterexample): the claim says the aggregate score is within
[0,100] for every evidence list. But the tailored-specification detector
itself produces, on a record matching all six suspicious phrases, an
evidence item of score 120, and the aggregator returns 120 on that
singleton list. -/
theorem C1_counterexample :
    (analisar_especificacoes_tailor_made licSeisFrases).map
      (fun e => calcular_score_geral [e]) = Option.some 120 ∧
    ¬ ((120 : ℚ) ≤ 100) := by with_unfolding_all decide

/-- C3 (counterexample): the claim says the suspicious-deadline detector's
score for negative remaining days never exceeds 100; on a record closed
five days ago it emits score 200. -/
theorem C3_counterexample :
    (analisar_prazo_suspeito 3 0 licAtrasada).map (fun e => e.score) =
      Option.some 200 ∧
    ¬ ((200 : ℚ) ≤ 100) := by with_unfolding_all decide

/-- C4 (counterexample): the claim says the low-competition evidence is
scored `max(0, 100 - count*50)`; with threshold 4 and three bidders the
source emits score `100 - 3*50 = -50`, not `max(0, -50) = 0`. -/
theorem C4_counterexample :
    (analisar_baixa_concorrencia 4 licTresParticipantes).map
      (fun e => e.score) = Option.some (-50) ∧
    max (0 : ℚ) (100 - 3 * 50) = 0 ∧
    ((-50 : ℚ) ≠ 0) := by with_unfolding_all decide

/-- C5 (counterexample): the claim says a record whose analysis raises is
excluded from the resulting analyses. In the source the analyzer's own
`except` returns a placeholder analysis instead, so the record appears in
the list: analysing the single record `LIC-0` with an exception occurring
yields a one-element list containing the placeholder, not the empty
list. -/
theorem C5_counterexample :
    analisar_licitacoes (fun _ => true) (fun _ => Option.none) {} (3/10) 0
      [licSimples] = [analise_erro "LIC-0" 0] ∧
    (analisar_licitacoes (fun _ => true) (fun _ => Option.none) {} (3/10) 0
      [licSimples]).length ≠ 0 ∧
    (analise_erro "LIC-0" 0).recomendacoes =
      ["Erro na análise - verificar dados"] := by with_unfolding_all decide

/-- C6 (counterexample): the claim says the cartel detector's evidence
detail names the minimum-price bidder. On `PT-2024-001` with first-listed
bidder `Empresa A` (price 100) and second bidder `Empresa B` (price 50),
the detail names `Empresa A`, while the minimum-price bidder is
`Empresa B`. -/
theorem C6_counterexample :
    (analisar_empresa_cartel (8/10) (3/10) licPT).bind
      (fun e => detalheEmpresa e.detalhes) =
      Option.some ("Empresa A", "11.111.111/0001-11") ∧
    (vencedorPorPreco pA [pB]).nome = "Empresa B" ∧
    ("Empresa A" : String) ≠ "Empresa B" := by with_unfolding_all decide

/-- C7 (counterexample): the claim says a zero-or-negative market
reference makes the detector emit no evidence. With reference `-100` and
a (negative) minimum proposed price `-200`, the detector emits evidence
with score 100. -/
theorem C7_counterexample :
    (analisar_preco_excessivo (fun _ => Option.some (-100)) 50 licNegativa).map
      (fun e => e.score) = Option.some 100 ∧
    ((-100 : ℚ) < 0) := by with_unfolding_all decide

/-- C9 (counterexample): the claim says two runs of any detector on the
same record with the same thresholds produce identical results. The
suspicious-deadline detector also reads the wall clock: on the same record
(closing at day 10) with the same threshold 3, a run at day 0 emits
nothing while a run at day 9 emits evidence of score 80. -/
theorem C9_counterexample :
    analisar_prazo_suspeito 3 0 licPrazoDez = Option.none ∧
    (analisar_prazo_suspeito 3 9 licPrazoDez).map (fun e => e.score) =
      Option.some 80 ∧
    analisar_prazo_suspeito 3 0 licPrazoDez ≠
      analisar_prazo_suspeito 3 9 licPrazoDez := by with_unfolding_all decide

/-- C8 (code bug evaluation): the claim says exactly the analyses of risk
Medium/High/Critical are materialized into cases. For a bidder-less record
the source's `_criar_caso_processado` reads the local `preco_mercado`,
which is only assigned inside `if licitacao.participantes:`, raising
`NameError`; the per-record handler then drops the case. So
`licSemParticipantes`, whose analysis is risk `ALTO`, yields no case. The
batch-count part of the claim does hold when materialization succeeds:
one hundred low-risk records plus five high-risk records (each with a
bidder and an item) materialize into exactly five cases. -/
theorem C8_bug :
    analiseSem.nivel_risco = NivelRisco.ALTO ∧
    processar_casos obter_preco_mercado [licSemParticipantes] [analiseSem] =
      [] ∧
    (processar_casos obter_preco_mercado licsCentoCinco
      analisesCentoCinco).length = 5 := by with_unfolding_all decide

/-- Unfolding the accumulation loop of `_calcular_score_geral` into the two
sums it computes. -/
theorem somaPonderada_eq (evidencias : List Evidencia) :
    ∀ a b : ℚ, somaPonderada evidencias (a, b) =
      (a + (evidencias.map (fun e => e.score * pesoDe e.tipo)).sum,
       b + (evidencias.map (fun e => pesoDe e.tipo)).sum) := by
  induction evidencias with
  | nil => intro a b; simp [somaPonderada]
  | cons e t ih =>
    intro a b
    have h : somaPonderada (e :: t) (a, b) =
        somaPonderada t (a + e.score * pesoDe e.tipo, b + pesoDe e.tipo) := rfl
    rw [h, ih]
    simp only [List.map_cons, List.sum_cons, Prod.mk.injEq]
    constructor <;> ring

/-- Every weight in the table (fallback included) is positive. -/
theorem pesoDe_pos (t : TipoEvidencia) : 0 < pesoDe t := by
  cases t <;> norm_num [pesoDe]

/-- The weight sum of any evidence list is nonnegative. -/
theorem soma_pesos_nonneg (evidencias : List Evidencia) :
    0 ≤ (evidencias.map (fun e => pesoDe e.tipo)).sum := by
  induction evidencias with
  | nil => simp
  | cons e t ih =>
    simp only [List.map_cons, List.sum_cons]
    have := pesoDe_pos e.tipo
    linarith

/-- The weight sum of a nonempty evidence list is positive. -/
theorem soma_pesos_pos (evidencias : List Evidencia) (h : evidencias ≠ []) :
    0 < (evidencias.map (fun e => pesoDe e.tipo)).sum := by
  cases evidencias with
  | nil => exact absurd rfl h
  | cons e t =>
    simp only [List.map_cons, List.sum_cons]
    have h1 := pesoDe_pos e.tipo
    have h2 := soma_pesos_nonneg t
    linarith

/-- With nonnegative scores the weighted score sum is nonnegative. -/
theorem soma_scores_nonneg (evidencias : List Evidencia)
    (hb : ∀ e ∈ evidencias, 0 ≤ e.score) :
    0 ≤ (evidencias.map (fun e => e.score * pesoDe e.tipo)).sum := by
  induction evidencias with
  | nil => simp
  | cons e t ih =>
    simp only [List.map_cons, List.sum_cons]
    have h1 : 0 ≤ e.score * pesoDe e.tipo :=
      mul_nonneg (hb e (List.mem_cons_self e t)) (le_of_lt (pesoDe_pos e.tipo))
    have h2 := ih (fun x hx => hb x (List.mem_cons_of_mem e hx))
    linarith

/-- With scores at most 100 the weighted score sum is at most 100 times the
weight sum. -/
theorem soma_scores_le (evidencias : List Evidencia)
    (hb : ∀ e ∈ evidencias, e.score ≤ 100) :
    (evidencias.map (fun e => e.score * pesoDe e.tipo)).sum ≤
      100 * (evidencias.map (fun e => pesoDe e.tipo)).sum := by
  induction evidencias with
  | nil => simp
  | cons e t ih =>
    simp only [List.map_cons, List.sum_cons]
    have h1 : e.score * pesoDe e.tipo ≤ 100 * pesoDe e.tipo :=
      mul_le_mul_of_nonneg_right (hb e (List.mem_cons_self e t))
        (le_of_lt (pesoDe_pos e.tipo))
    have h2 := ih (fun x hx => hb x (List.mem_cons_of_mem e hx))
    linarith

/-- The aggregator on a nonempty list is the claimed weighted average. -/
theorem calcular_score_geral_eq (evidencias : List Evidencia)
    (h : evidencias ≠ []) :
    calcular_score_geral evidencias =
      (evidencias.map (fun e => e.score * pesoDe e.tipo)).sum /
      (evidencias.map (fun e => pesoDe e.tipo)).sum := by
  cases evidencias with
  | nil => exact absurd rfl h
  | cons e t =>
    simp only [calcular_score_geral, List.isEmpty_cons, Bool.false_eq_true,
      if_false, somaPonderada_eq, zero_add]
    rw [if_pos (soma_pesos_pos (e :: t) (by simp))]

/-- C1: the aggregator computes
`Σ(score × weight[kind]) / Σ(weight[kind])` over the evidence items present
(weights from the fixed table, fallback 0.1); the empty list scores 0 with
risk level `BAIXO`; and the result lies in [0,100] whenever every evidence
score lies in [0,100] (which the claim's unconditional [0,100] range
assertion needs, and which the detectors do not guarantee — see the
counterexample). -/
theorem C1_amended :
    (calcular_score_geral [] = 0 ∧
     determinar_nivel_risco (calcular_score_geral []) = NivelRisco.BAIXO) ∧
    (∀ evidencias : List Evidencia, evidencias ≠ [] →
      calcular_score_geral evidencias =
        (evidencias.map (fun e => e.score * pesoDe e.tipo)).sum /
        (evidencias.map (fun e => pesoDe e.tipo)).sum) ∧
    (∀ evidencias : List Evidencia,
      (∀ e ∈ evidencias, 0 ≤ e.score ∧ e.score ≤ 100) →
      0 ≤ calcular_score_geral evidencias ∧
      calcular_score_geral evidencias ≤ 100) := by
  refine ⟨⟨rfl, by with_unfolding_all decide⟩, calcular_score_geral_eq, ?_⟩
  intro evidencias hb
  by_cases h : evidencias = []
  · subst h
    have h0 : calcular_score_geral [] = 0 := rfl
    rw [h0]
    exact ⟨le_refl 0, by norm_num⟩
  · rw [calcular_score_geral_eq evidencias h]
    have hpos := soma_pesos_pos evidencias h
    have h1 := soma_scores_nonneg evidencias (fun e he => (hb e he).1)
    have h2 := soma_scores_le evidencias (fun e he => (hb e he).2)
    constructor
    · exact div_nonneg h1 (le_of_lt hpos)
    · rw [div_le_iff₀ hpos]
      linarith

/-- C1 (witness): the range part of the amended claim applied to the
singleton list of an evidence item of score 80. -/
theorem C1_witness :
    0 ≤ calcular_score_geral [evOitenta] ∧
    calcular_score_geral [evOitenta] ≤ 100 :=
  C1_amended.2.2 [evOitenta] (by with_unfolding_all decide)

/-- C2: the risk classifier realizes the documented thresholds exactly
(score ≥ 80 `CRITICO`, 80 > score ≥ 60 `ALTO`, 60 > score ≥ 40 `MEDIO`,
score < 40 `BAIXO`, with score 80 `CRITICO` and score 79.99 `ALTO`), and it
is monotone under `BAIXO < MEDIO < ALTO < CRITICO`. -/
theorem C2_niveis :
    (∀ s : ℚ, 80 ≤ s → determinar_nivel_risco s = NivelRisco.CRITICO) ∧
    (∀ s : ℚ, 60 ≤ s → s < 80 → determinar_nivel_risco s = NivelRisco.ALTO) ∧
    (∀ s : ℚ, 40 ≤ s → s < 60 → determinar_nivel_risco s = NivelRisco.MEDIO) ∧
    (∀ s : ℚ, s < 40 → determinar_nivel_risco s = NivelRisco.BAIXO) ∧
    determinar_nivel_risco 80 = NivelRisco.CRITICO ∧
    determinar_nivel_risco (7999/100) = NivelRisco.ALTO ∧
    (∀ s t : ℚ, s ≤ t →
      nivelOrd (determinar_nivel_risco s) ≤
        nivelOrd (determinar_nivel_risco t)) := by
  refine ⟨?_, ?_, ?_, ?_, ?_, ?_, ?_⟩
  · intro s hs
    unfold determinar_nivel_risco
    rw [if_pos hs]
  · intro s h60 h80
    unfold determinar_nivel_risco
    rw [if_neg (by linarith), if_pos h60]
  · intro s h40 h60
    unfold determinar_nivel_risco
    rw [if_neg (by linarith), if_neg (by linarith), if_pos h40]
  · intro s h40
    unfold determinar_nivel_risco
    rw [if_neg (by linarith), if_neg (by linarith), if_neg (by linarith)]
  · with_unfolding_all decide
  · with_unfolding_all decide
  · intro s t hst
    unfold determinar_nivel_risco
    split_ifs <;> simp only [nivelOrd] <;> first | omega | linarith

/-- C2 (witness): monotonicity applied at scores 50 and 90. -/
theorem C2_witness :
    nivelOrd (determinar_nivel_risco 50) ≤
      nivelOrd (determinar_nivel_risco 90) :=
  C2_niveis.2.2.2.2.2.2 50 90 (by norm_num)

/-- The tailored-specification accumulation never exceeds 20 per phrase in
the fixed six-phrase vocabulary, so 120 overall. -/
theorem scoreSuspeicao_le (esp : String) : scoreSuspeicao esp ≤ 120 := by
  unfold scoreSuspeicao palavras_suspeitas
  simp only [List.foldl]
  split_ifs <;> norm_num

/-- C3: evidence score ranges per detector. The excessive-price detector's
scores lie in [0,100] (for a nonnegative threshold); the cartel detector
under the configured threshold 0.8 only ever emits score 85 (the random
branch stays at or below 0.6); the low-competition detector under the
configured threshold 1 only ever emits score 100; the tailored-spec
detector's score lies in (40,120] — it can exceed 100; and the
suspicious-deadline score is exactly `100 - 20*days`, which stays within
bounds only for nonnegative remaining days. -/
theorem C3_amended :
    (∀ (mp : String → Option ℚ) (th : ℚ) (lic : Licitacao) (e : Evidencia),
      0 ≤ th → analisar_preco_excessivo mp th lic = Option.some e →
      0 ≤ e.score ∧ e.score ≤ 100) ∧
    (∀ (draw : ℚ) (lic : Licitacao) (e : Evidencia),
      draw ≤ 6/10 → analisar_empresa_cartel (8/10) draw lic = Option.some e →
      e.score = 85) ∧
    (∀ (lic : Licitacao) (e : Evidencia),
      analisar_baixa_concorrencia 1 lic = Option.some e → e.score = 100) ∧
    (∀ (lic : Licitacao) (e : Evidencia),
      analisar_especificacoes_tailor_made lic = Option.some e →
      40 < e.score ∧ e.score ≤ 120) ∧
    (∀ (th now : ℤ) (lic : Licitacao) (e : Evidencia),
      analisar_prazo_suspeito th now lic = Option.some e →
      e.score = 100 - ((lic.data_fechamento - now : ℤ) : ℚ) * 20 ∧
      (0 ≤ lic.data_fechamento - now → e.score ≤ 100)) := by
  refine ⟨?_, ?_, ?_, ?_, ?_⟩
  · intro mp th lic e hth h
    simp only [analisar_preco_excessivo] at h
    cases hp : lic.participantes with
    | nil => simp [hp] at h
    | cons p ps =>
      cases hi : lic.itens with
      | nil => simp [hp, hi] at h
      | cons item rest =>
        simp only [hp, hi] at h
        cases hm : mp item.descricao with
        | none => simp [hm] at h
        | some pm =>
          simp only [hm] at h
          split_ifs at h with h0 hlt
          simp only [Option.some.injEq] at h
          subst h
          refine ⟨le_min (by norm_num) ?_, min_le_left _ _⟩
          linarith
  · intro draw lic e hd h
    simp only [analisar_empresa_cartel] at h
    cases hp : lic.participantes with
    | nil => simp [hp] at h
    | cons p ps =>
      simp only [hp] at h
      by_cases hc : (idsSuspeitos.any fun s => strContains lic.id s) = true
      · simp only [hc, if_true] at h
        rw [if_pos (by norm_num)] at h
        simp only [Option.some.injEq] at h
        subst h
        show ((pyInt ((85:ℚ)/100 * 100) : ℤ) : ℚ) = 85
        with_unfolding_all decide
      · simp only [Bool.not_eq_true] at hc
        simp only [hc, Bool.false_eq_true, if_false] at h
        rw [if_neg (by linarith)] at h
        simp at h
  · intro lic e h
    simp only [analisar_baixa_concorrencia] at h
    split_ifs at h with hn
    simp only [Option.some.injEq] at h
    subst h
    have h0 : lic.participantes.length = 0 := Nat.lt_one_iff.mp hn
    simp [h0]
  · intro lic e h
    simp only [analisar_especificacoes_tailor_made] at h
    cases hi : lic.itens with
    | nil => simp [hi] at h
    | cons item rest =>
      simp only [hi] at h
      split_ifs at h with hs
      simp only [Option.some.injEq] at h
      subst h
      exact ⟨hs, scoreSuspeicao_le _⟩
  · intro th now lic e h
    simp only [analisar_prazo_suspeito] at h
    split_ifs at h with hd
    simp only [Option.some.injEq] at h
    subst h
    refine ⟨rfl, ?_⟩
    intro hpos
    have hq : (0 : ℚ) ≤ ((lic.data_fechamento - now : ℤ) : ℚ) := by
      exact_mod_cast hpos
    have h20 : (0 : ℚ) ≤ ((lic.data_fechamento - now : ℤ) : ℚ) * 20 := by
      nlinarith
    simp only []
    linarith

/-- C3 (witness): the deadline part of the amended claim applied to a
record closing one day ahead. -/
theorem C3_witness :
    evPrazoUm.score = 100 - ((licPrazoUm.data_fechamento - 0 : ℤ) : ℚ) * 20 ∧
    (0 ≤ licPrazoUm.data_fechamento - 0 → evPrazoUm.score ≤ 100) :=
  C3_amended.2.2.2.2 3 0 licPrazoUm evPrazoUm (by with_unfolding_all decide)

/-- C4: for a bidder count below the threshold the low-competition detector
emits evidence scored exactly `100 - count*50` — without the claimed
`max(0, ...)` clamp — with detail {count, threshold}; with threshold 2 and
count 1 the score is exactly 50; with count 0 it emits score 100 (and, the
loop body being total, never fails). -/
theorem C4_amended :
    (∀ (th : ℕ) (lic : Licitacao), lic.participantes.length < th →
      (analisar_baixa_concorrencia th lic).map (fun e => (e.score, e.detalhes)) =
        Option.some (100 - (lic.participantes.length : ℚ) * 50,
          Detalhes.baixaConc lic.participantes.length th)) ∧
    (∀ lic : Licitacao, lic.participantes.length = 1 →
      (analisar_baixa_concorrencia 2 lic).map (fun e => e.score) =
        Option.some 50) ∧
    (∀ lic : Licitacao, lic.participantes.length = 0 →
      (analisar_baixa_concorrencia 1 lic).map (fun e => e.score) =
        Option.some 100) := by
  refine ⟨?_, ?_, ?_⟩
  · intro th lic h
    simp [analisar_baixa_concorrencia, if_pos h]
  · intro lic h1
    simp [analisar_baixa_concorrencia, h1]
    norm_num
  · intro lic h0
    simp [analisar_baixa_concorrencia, h0]

/-- C4 (witness): the threshold-2, count-1 part applied to a concrete
one-bidder record. -/
theorem C4_witness :
    (analisar_baixa_concorrencia 2 licUmParticipante).map (fun e => e.score) =
      Option.some 50 :=
  C4_amended.2.1 licUmParticipante (by with_unfolding_all decide)

/-- C5: a failure inside a record's analysis is caught inside
`analisar_licitacao` itself, which returns the placeholder analysis, so the
record still appears in the analyses list (it is not excluded, contrary to
the claim); the list keeps one analysis per record and the remaining
records are processed normally — the run continues. -/
theorem C5_amended :
    ∀ (raises : Licitacao → Bool) (mp : String → Option ℚ) (cfg : Thresholds)
      (draw : ℚ) (now : ℤ) (lics : List Licitacao),
    (analisar_licitacoes raises mp cfg draw now lics).length = lics.length ∧
    (∀ lic ∈ lics, raises lic = true →
      analise_erro lic.id now ∈ analisar_licitacoes raises mp cfg draw now lics) ∧
    (∀ lic ∈ lics, raises lic = false →
      analisar_licitacao_core mp cfg draw now lic ∈
        analisar_licitacoes raises mp cfg draw now lics) := by
  intro raises mp cfg draw now lics
  refine ⟨List.length_map _ _, ?_, ?_⟩
  · intro lic hmem hr
    have h := List.mem_map_of_mem
      (fun l => analisar_licitacao (raises l) mp cfg draw now l) hmem
    simpa [analisar_licitacoes, analisar_licitacao, hr] using h
  · intro lic hmem hr
    have h := List.mem_map_of_mem
      (fun l => analisar_licitacao (raises l) mp cfg draw now l) hmem
    simpa [analisar_licitacoes, analisar_licitacao, hr] using h

/-- C5 (witness): on a run where the single record's analysis fails, the
placeholder analysis for that record is in the output list. -/
theorem C5_witness :
    analise_erro licSimples.id 0 ∈
      analisar_licitacoes (fun _ => true) (fun _ => Option.none) {} (3/10) 0
        [licSimples] :=
  (C5_amended (fun _ => true) (fun _ => Option.none) {} (3/10) 0
    [licSimples]).2.1 licSimples (List.mem_singleton.mpr rfl) rfl

/-- Python `min(..., key=...)` on a nonempty bidder list returns one of the
bidders. -/
theorem vencedorPorPreco_mem :
    ∀ (ps : List Participante) (p : Participante),
      vencedorPorPreco p ps ∈ p :: ps := by
  intro ps
  induction ps with
  | nil => intro p; simp [vencedorPorPreco]
  | cons q t ih =>
    intro p
    have hstep : vencedorPorPreco p (q :: t) =
        vencedorPorPreco (if q.preco_proposto < p.preco_proposto then q else p)
          t := rfl
    rw [hstep]
    have hmem := ih (if q.preco_proposto < p.preco_proposto then q else p)
    by_cases hc : q.preco_proposto < p.preco_proposto
    · rw [if_pos hc] at hmem ⊢
      rcases List.mem_cons.mp hmem with h1 | h1 <;> simp [h1]
    · rw [if_neg hc] at hmem ⊢
      rcases List.mem_cons.mp hmem with h1 | h1 <;> simp [h1]

/-- Python `min(..., key=...)` on a nonempty bidder list attains the
minimum proposed price. -/
theorem vencedorPorPreco_min :
    ∀ (ps : List Participante) (p q : Participante), q ∈ p :: ps →
      (vencedorPorPreco p ps).preco_proposto ≤ q.preco_proposto := by
  intro ps
  induction ps with
  | nil =>
    intro p q hq
    rw [List.mem_singleton] at hq
    subst hq
    exact le_refl _
  | cons r t ih =>
    intro p q hq
    have hstep : vencedorPorPreco p (r :: t) =
        vencedorPorPreco (if r.preco_proposto < p.preco_proposto then r else p)
          t := rfl
    rw [hstep]
    set p2 := if r.preco_proposto < p.preco_proposto then r else p with hp2
    have hp2p : p2.preco_proposto ≤ p.preco_proposto := by
      rw [hp2]
      split_ifs with hc
      · exact le_of_lt hc
      · exact le_refl _
    have hp2r : p2.preco_proposto ≤ r.preco_proposto := by
      rw [hp2]
      split_ifs with hc
      · exact le_refl _
      · exact le_of_not_lt hc
    have hself : (vencedorPorPreco p2 t).preco_proposto ≤ p2.preco_proposto :=
      ih p2 p2 (List.mem_cons_self p2 t)
    rcases List.mem_cons.mp hq with h1 | h1
    · rw [h1]
      exact le_trans hself hp2p
    · rcases List.mem_cons.mp h1 with h2 | h2
      · rw [h2]
        exact le_trans hself hp2r
      · exact ih p2 q (List.mem_cons_of_mem p2 h2)

/-- C6: the cartel detector's evidence detail carries the name and tax id
of `participantes[0]`, the first-listed bidder (not the cheapest); the
minimum-price "winner" rule lives in the case materializer, whose
`empresa_vencedora`/`cnpj` fields always belong to a bidder attaining the
minimum proposed price. -/
theorem C6_amended :
    (∀ (th draw : ℚ) (lic : Licitacao) (e : Evidencia),
      analisar_empresa_cartel th draw lic = Option.some e →
      ∃ p, lic.participantes.head? = Option.some p ∧
        detalheEmpresa e.detalhes = Option.some (p.nome, p.cnpj)) ∧
    (∀ (mp : String → Option ℚ) (lic : Licitacao)
      (analise : AnaliseHiperfaturamento) (c : CasoProcessado),
      criar_caso_processado mp lic analise = Option.some c →
      ∃ p, p ∈ lic.participantes ∧ c.empresa_vencedora = p.nome ∧
        c.cnpj = p.cnpj ∧
        ∀ q ∈ lic.participantes, p.preco_proposto ≤ q.preco_proposto) := by
  constructor
  · intro th draw lic e h
    simp only [analisar_empresa_cartel] at h
    cases hp : lic.participantes with
    | nil => simp [hp] at h
    | cons p ps =>
      simp only [hp] at h
      cases hb : (idsSuspeitos.any fun s => strContains lic.id s) with
      | true =>
        have ht : (if (true = true) then (85:ℚ)/100 else draw) = 85/100 :=
          if_pos rfl
        rw [hb, ht] at h
        split_ifs at h with hth
        simp only [Option.some.injEq] at h
        subst h
        exact ⟨p, by simp [hp], rfl⟩
      | false =>
        have hf : (if (false = true) then (85:ℚ)/100 else draw) = draw :=
          if_neg (by simp)
        rw [hb, hf] at h
        split_ifs at h with hth
        simp only [Option.some.injEq] at h
        subst h
        exact ⟨p, by simp [hp], rfl⟩
  · intro mp lic analise c h
    simp only [criar_caso_processado] at h
    cases hp : lic.participantes with
    | nil => simp [hp] at h
    | cons p ps =>
      cases hi : lic.itens with
      | nil => simp [hp, hi] at h
      | cons item rest =>
        simp only [hp, hi] at h
        simp only [Option.some.injEq] at h
        subst h
        refine ⟨vencedorPorPreco p ps, ?_, rfl, rfl, ?_⟩
        · exact vencedorPorPreco_mem ps p
        · intro q hq
          exact vencedorPorPreco_min ps p q hq

/-- C6 (witness): the detector part applied to `licPT`. -/
theorem C6_witness :
    ∃ p, licPT.participantes.head? = Option.some p ∧
      detalheEmpresa evCartelPT.detalhes = Option.some (p.nome, p.cnpj) :=
  C6_amended.1 (8/10) (3/10) licPT evCartelPT (by with_unfolding_all decide)

/-- Folding `min` over nonnegative prices from a nonnegative seed stays
nonnegative. -/
theorem foldl_min_nonneg :
    ∀ (ps : List Participante) (x : ℚ), 0 ≤ x →
      (∀ q ∈ ps, 0 ≤ q.preco_proposto) →
      0 ≤ ps.foldl (fun m q => min m q.preco_proposto) x := by
  intro ps
  induction ps with
  | nil => intro x hx _; simpa using hx
  | cons q t ih =>
    intro x hx hq
    have h1 : 0 ≤ min x q.preco_proposto :=
      le_min hx (hq q (List.mem_cons_self q t))
    have h2 := ih (min x q.preco_proposto) h1
      (fun r hr => hq r (List.mem_cons_of_mem q hr))
    simpa [List.foldl_cons] using h2

/-- C7: with a zero market reference the excessive-price detector takes the
Python-falsiness branch: reference treated as unknown, no evidence, no
division (so no failure). With a negative reference it does not fail
either, and it emits no evidence provided the minimum proposed price is
nonnegative — but the claim's unconditional "emits no evidence" is false
for negative references paired with negative proposed prices (see the
counterexample). -/
theorem C7_amended :
    (∀ (mp : String → Option ℚ) (th : ℚ) (lic : Licitacao)
      (item : ItemLicitacao) (rest : List ItemLicitacao),
      lic.itens = item :: rest → mp item.descricao = Option.some 0 →
      analisar_preco_excessivo mp th lic = Option.none) ∧
    (∀ (mp : String → Option ℚ) (th : ℚ) (lic : Licitacao)
      (item : ItemLicitacao) (rest : List ItemLicitacao) (r : ℚ),
      0 ≤ th → lic.itens = item :: rest → mp item.descricao = Option.some r →
      r < 0 → (∀ p ∈ lic.participantes, 0 ≤ p.preco_proposto) →
      analisar_preco_excessivo mp th lic = Option.none) := by
  constructor
  · intro mp th lic item rest hi hm
    cases hp : lic.participantes with
    | nil => simp [analisar_preco_excessivo, hp]
    | cons p ps =>
      simp [analisar_preco_excessivo, hp, hi, hm]
  · intro mp th lic item rest r hth hi hm hr hnn
    cases hp : lic.participantes with
    | nil => simp [analisar_preco_excessivo, hp]
    | cons p ps =>
      simp only [analisar_preco_excessivo, hp, hi, hm]
      rw [if_neg (ne_of_lt hr)]
      have hmenor : 0 ≤ menorPreco p ps := by
        apply foldl_min_nonneg ps p.preco_proposto
        · exact hnn p (by rw [hp]; exact List.mem_cons_self p ps)
        · intro q hq
          exact hnn q (by rw [hp]; exact List.mem_cons_of_mem p hq)
      have hnum : 0 < menorPreco p ps - r := by linarith
      have hdiv : (menorPreco p ps - r) / r < 0 := div_neg_of_pos_of_neg hnum hr
      have hmul : (menorPreco p ps - r) / r * 100 < 0 :=
        mul_neg_of_neg_of_pos hdiv (by norm_num)
      rw [if_neg (not_lt.mpr (by linarith))]

/-- C7 (witness): the zero-reference part applied to `licNegativa`. -/
theorem C7_witness :
    analisar_preco_excessivo (fun _ => Option.some 0) 50 licNegativa =
      Option.none :=
  C7_amended.1 (fun _ => Option.some 0) 50 licNegativa
    { descricao := "produto x" } [] rfl rfl

/-- C9: the detectors are deterministic in the inputs they actually read.
In particular the cartel detector's result does not depend on the RNG draw
(under the configured threshold 0.8, the non-suspicious branch's draw in
[0.1, 0.6] never clears the threshold), so two runs with different draws
coincide; the claim fails only because the suspicious-deadline detector
also reads the wall clock (see the counterexample). -/
theorem C9_amended :
    ∀ (lic : Licitacao) (d1 d2 : ℚ),
      1/10 ≤ d1 → d1 ≤ 6/10 → 1/10 ≤ d2 → d2 ≤ 6/10 →
      analisar_empresa_cartel (8/10) d1 lic =
        analisar_empresa_cartel (8/10) d2 lic := by
  intro lic d1 d2 h11 h16 h21 h26
  simp only [analisar_empresa_cartel]
  cases hp : lic.participantes with
  | nil => rfl
  | cons p ps =>
    by_cases hc : (idsSuspeitos.any fun s => strContains lic.id s) = true
    · simp [hc]
    · simp only [Bool.not_eq_true] at hc
      simp [hc]
      rw [if_neg (not_lt.mpr (by linarith)), if_neg (not_lt.mpr (by linarith))]

/-- C9 (witness): draw-independence of the cartel detector on `licPT`. -/
theorem C9_witness :
    analisar_empresa_cartel (8/10) (2/10) licPT =
      analisar_empresa_cartel (8/10) (5/10) licPT :=
  C9_amended licPT (2/10) (5/10) (by norm_num) (by norm_num) (by norm_num)
    (by norm_num)

/-- C10: the reliability estimator returns 0 on the empty list and
`min(100, min(100, count*20) * mean / 100)` on a nonempty list; on scores
80 and 60 it returns exactly 28 (in the exact-rational embedding of the
source's float arithmetic). -/
theorem C10_confiabilidade :
    calcular_confiabilidade [] = 0 ∧
    (∀ evidencias : List Evidencia, evidencias ≠ [] →
      calcular_confiabilidade evidencias =
        min 100 (min 100 ((evidencias.length : ℚ) * 20) *
          ((evidencias.map (fun e => e.score)).sum /
            (evidencias.length : ℚ)) / 100)) ∧
    calcular_confiabilidade [evOitenta, evSessenta] = 28 := by
  refine ⟨rfl, ?_, by with_unfolding_all decide⟩
  intro evidencias h
  cases evidencias with
  | nil => exact absurd rfl h
  | cons e t =>
    simp only [calcular_confiabilidade, List.isEmpty_cons, Bool.false_eq_true,
      if_false]
    rw [mul_div_assoc]

/-- C10 (witness): the nonempty-list formula applied to a singleton. -/
theorem C10_witness :
    calcular_confiabilidade [evOitenta] =
      min 100 (min 100 ((([evOitenta] : List Evidencia).length : ℚ) * 20) *
        ((([evOitenta] : List Evidencia).map (fun e => e.score)).sum /
          (([evOitenta] : List Evidencia).length : ℚ)) / 100) :=
  C10_confiabilidade.2.1 [evOitenta] (by simp)
